import Mathlib

/-!
Verification of `linearizer/transform.py`: a shallow embedding of the
transform contract (`BaseTransformer`) and the concrete variant catalog
(`Abs`, `Loge`, `Log2`, `Log10`, `Exp`, the `_Power` family, and
`DEFAULT_TRANSFORM`), together with theorems settling the specification
claims about it.

Numeric series elements are modelled as exact rationals where the claim is
about exact control flow or exact cancellation, and as reals (with `rpow`)
where the claim is the shape of the power-family formula.  Python's `None`
becomes `Option.none`, a raised exception becomes `Except.error`.
-/

namespace Linearizer

/-- The variant catalog: one constructor per concrete transformer class in
`transform.py`.  `PowerBase` stands for the class named `_Power` in the
source (the leading underscore is dropped for Lean). -/
inductive Variant where
  | Abs | Loge | Log2 | Log10 | Exp
  | Power2 | Power3 | Power4 | Sqrt | Inv | InvPower2
  deriving DecidableEq, Repr

/-- A floating-point value as seen by `np.isfinite`: either a finite number
(modelled exactly as a rational) or one of the nonfinite values NaN, +inf,
-inf.  -/
inductive FloatVal where
  | finite (q : ℚ)
  | nan
  | inf
  | neginf
  deriving DecidableEq, Repr

/-- Models `np.isfinite` on a single element: true exactly on finite values. -/
def FloatVal.isFinite : FloatVal → Bool
  | .finite _ => true
  | _ => false

/-- Models `BaseTransformer.validate_input(x)`: `np.isfinite(x).all()` over the
input series. -/
def validate_input (xs : List FloatVal) : Bool :=
  xs.all FloatVal.isFinite

/-- The declared signature of `__call__` for each variant class.  All five
simple kernels declare `__call__(self, x, a, b)`, and every power-family
class inherits `_Power.__call__(self, x, a, b)`; `self` is not part of the
bound-method signature that `inspect.signature` reports. -/
def callSignature : Variant → List String
  | .Abs => ["x", "a", "b"]
  | .Loge => ["x", "a", "b"]
  | .Log2 => ["x", "a", "b"]
  | .Log10 => ["x", "a", "b"]
  | .Exp => ["x", "a", "b"]
  -- the six power-family classes inherit `_Power.__call__(self, x, a, b)`
  | .Power2 => ["x", "a", "b"]
  | .Power3 => ["x", "a", "b"]
  | .Power4 => ["x", "a", "b"]
  | .Sqrt => ["x", "a", "b"]
  | .Inv => ["x", "a", "b"]
  | .InvPower2 => ["x", "a", "b"]

/-- Models `BaseTransformer.get_params()`: the parameter names of `__call__`,
keeping declaration order, with the input-series parameter `x` removed. -/
def get_params (v : Variant) : List String :=
  (callSignature v).filter (fun k => k ≠ "x")

/-- A fitted-parameter mapping: parameter name to numeric value (a Python
`dict` built from a mapping argument or from keyword arguments). -/
abbrev Params := List (String × ℚ)

/-- The mutable per-instance state: `self.params`, which is `None` right
after `__init__` and a mapping after `set_params`. -/
structure TState where
  params : Option Params
  deriving DecidableEq, Repr

/-- Models `BaseTransformer.__init__`: `self.params = None`. -/
def TState.init : TState := ⟨none⟩

/-- Models `BaseTransformer.set_params(self, params=None, **kwargs)`:
`self.params = params if params is not None else kwargs`.  The first
argument is the explicit mapping (possibly absent, i.e. `none`), the second
the keyword-argument dictionary (empty when no keywords are given). -/
def set_params (p : Option Params) (kw : Params) (_s : TState) : TState :=
  ⟨some (p.getD kw)⟩

/-- Errors a `transform` call can raise: the `ValueError` for unset
parameters ("invalid-state"), and the `TypeError` from calling `__call__`
with keyword arguments that do not match its signature
("argument-mismatch"). -/
inductive TError where
  | invalidState
  | argMismatch
  deriving DecidableEq, Repr

/-- A successfully dispatched kernel invocation: `transform` reached the
kernel `__call__` of `variant` with positional input `x` and keyword
arguments `args`. -/
structure KernelCall where
  variant : Variant
  x : ℚ
  args : Params
  deriving DecidableEq, Repr

/-- The argument binding performed by
`functools.partial(self.__call__, **self.params)` followed by `fn(x)`:
the call succeeds iff every non-`x` parameter of the signature is supplied
by the mapping and every key of the mapping is such a parameter (a key
`"x"` or any unknown key raises `TypeError`, as does a missing `a` or
`b`). -/
def callKernel (v : Variant) (ps : Params) (x : ℚ) : Except TError KernelCall :=
  if ((get_params v).all (fun r => (ps.lookup r).isSome)
      && ps.all (fun kv => decide (kv.1 ∈ get_params v))) then
    .ok ⟨v, x, ps⟩
  else
    .error .argMismatch

/-- Models `BaseTransformer.transform(self, x)`: raise the invalid-state
`ValueError` when `self.params is None`, otherwise bind the stored
parameters to the kernel and invoke it. -/
def transform (v : Variant) (s : TState) (x : ℚ) : Except TError KernelCall :=
  match s.params with
  | none => .error .invalidState
  | some ps => callKernel v ps x

/-! ### Class-level complexity constants

Each class body assigns `complexity` once, when the class is created.  In
`_Power` the body is `n = 1` followed by `complexity = n * 30`, so the
expression `n * 30` is evaluated with the base-class value `n = 1` and the
subclasses that do not assign `complexity` themselves (`Power2`, `Power3`,
`Power4`) inherit that already-computed value. -/

/-- Models `_Power.n = 1` (the class attribute bound in the `_Power` class body). -/
def PowerBase.n : ℤ := 1

/-- Models `_Power.complexity = n * 30`, evaluated once in the `_Power` class body
with `n = PowerBase.n = 1`. -/
def PowerBase.complexity : ℤ := PowerBase.n * 30

/-- The class-level `complexity` attribute of each variant, resolved the
way Python attribute lookup resolves it: the value assigned in the class's
own body if there is one, otherwise the value inherited from `_Power`. -/
def complexity : Variant → ℤ
  | .Abs => 50
  | .Loge => 26
  | .Log2 => 25
  | .Log10 => 35
  | .Exp => 40
  -- Power2, Power3, Power4 assign only `n`; `complexity` is inherited
  | .Power2 => PowerBase.complexity
  | .Power3 => PowerBase.complexity
  | .Power4 => PowerBase.complexity
  | .Sqrt => 33
  | .Inv => 37
  | .InvPower2 => 67

/-! ### The power-family kernel -/

/-- The stabilizing constant `1e-15` from `_Power.__call__`, as an exact
rational. -/
def epsQ : ℚ := 1 / 10 ^ 15

/-- The exponent attribute `self.n` seen by `_Power.__call__` on an
instance of each power-family class. -/
def powerExponent : Variant → Option ℚ
  | .Power2 => some 2
  | .Power3 => some 3
  | .Power4 => some 4
  | .Sqrt => some (1 / 2)
  | .Inv => some (-1)
  | .InvPower2 => some (-2)
  | _ => none

/-- The power-family variants: the concrete subclasses of `_Power`. -/
def powerFamily : List Variant :=
  [.Power2, .Power3, .Power4, .Sqrt, .Inv, .InvPower2]

/-- Models `_Power.__call__(self, x, a, b)` over the reals:
`if self.n > 0: np.power(a*x+b, self.n)
 else: 1 / (np.power(a*x+b, -self.n) + 1e-15)`,
with `np.power` read as real exponentiation (`rpow`). -/
noncomputable def powerCall (n : ℝ) (x a b : ℝ) : ℝ :=
  if 0 < n then (a * x + b) ^ n
  else 1 / ((a * x + b) ^ (-n) + (epsQ : ℝ))

/-- The real-valued power kernel applied by a power-family variant: the
generic `_Power.__call__` instantiated with the variant's own class
attribute `n` (the base-class default `n = 1` for classes outside the
family, which never reach this kernel). -/
noncomputable def powerApply (v : Variant) (x a b : ℝ) : ℝ :=
  powerCall (((powerExponent v).getD 1 : ℚ) : ℝ) x a b

/-- Models `_Power.__call__` in exact rational arithmetic, for the integer
exponents of the family.  In the `n ≤ 0` branch the division is performed
by floating-point hardware, which produces a nonfinite value (infinity)
when the stabilized denominator is exactly zero; that outcome is modelled
as `none`. -/
def powerCallZ (n : ℤ) (x a b : ℚ) : Option ℚ :=
  if 0 < n then some ((a * x + b) ^ n.toNat)
  else if (a * x + b) ^ (-n).toNat + epsQ = 0 then none
  else some (1 / ((a * x + b) ^ (-n).toNat + epsQ))

/-- Models `Inv.__call__(x, a, b)`: the power kernel with `Inv`'s class attribute
`n = -1`. -/
def Inv.apply (x a b : ℚ) : Option ℚ :=
  powerCallZ (-1) x a b

/-! ### Catalog -/

/-- Models `DEFAULT_TRANSFORM = [Loge, Exp, Power2, Sqrt, Inv]`. -/
def DEFAULT_TRANSFORM : List Variant :=
  [.Loge, .Exp, .Power2, .Sqrt, .Inv]

/-- The key set of a parameter mapping, in insertion order (the keys of the
Python `dict`). -/
def keysOf (ps : Params) : List String :=
  ps.map Prod.fst

/-! ## Claims -/

/-- C1: the claim states `Power2.complexity = 60`, `Power3.complexity = 90`,
`Power4.complexity = 120`.  This is false: `complexity = n * 30` is
evaluated once, in the `_Power` class body, with `n = 1`, so all three
subclasses inherit the value `30`. -/
theorem C1_counterexample :
    ¬ (complexity .Power2 = 60 ∧ complexity .Power3 = 90 ∧
       complexity .Power4 = 120) := by
  decide

/-- C1 (amended): `Power2`, `Power3` and `Power4` do not override
`complexity`; each inherits `_Power.complexity`, which is the formula
`n * 30` evaluated with the base-class exponent `n = 1`, i.e. `30`. -/
theorem C1_power_complexity_inherited :
    complexity .Power2 = PowerBase.n * 30 ∧
    complexity .Power3 = PowerBase.n * 30 ∧
    complexity .Power4 = PowerBase.n * 30 ∧
    complexity .Power2 = 30 ∧ complexity .Power3 = 30 ∧
    complexity .Power4 = 30 := by
  decide

/-- C8: the simple-kernel complexity constants are exactly
`Log2 = 25 < Loge = 26 < Log10 = 35 < Exp = 40 < Abs = 50`. -/
theorem C8_complexity_order :
    complexity .Log2 = 25 ∧ complexity .Loge = 26 ∧
    complexity .Log10 = 35 ∧ complexity .Exp = 40 ∧
    complexity .Abs = 50 ∧
    complexity .Log2 < complexity .Loge ∧
    complexity .Loge < complexity .Log10 ∧
    complexity .Log10 < complexity .Exp ∧
    complexity .Exp < complexity .Abs := by
  decide

/-- C10: when `set_params` receives both a non-`None` mapping and keyword
arguments, the mapping becomes the new `params` and the keyword arguments
are discarded (the stored state does not depend on `kw` at all). -/
theorem C10_mapping_overrides_kwargs (p kw : Params) (s : TState) :
    (set_params (some p) kw s).params = some p :=
  rfl

/-- C9: `set_params()` with no mapping and no keyword arguments stores the
empty mapping (not the unset state `None`), so a following `transform(x)`
does not raise the invalid-state error but fails with the
argument-mismatch error from invoking the kernel without `a` and `b`. -/
theorem C9_empty_set_params (v : Variant) (x : ℚ) :
    (set_params none [] TState.init).params = some [] ∧
    transform v (set_params none [] TState.init) x =
      .error .argMismatch := by
  refine ⟨rfl, ?_⟩
  cases v <;> rfl

/-- C4: `transform(x)` on a freshly constructed instance (before any
`set_params`) raises the invalid-state error for every variant, and a
`transform` call reaches the kernel only when parameters have been set. -/
theorem C4_transform_requires_params :
    (∀ (v : Variant) (x : ℚ),
      transform v TState.init x = .error .invalidState) ∧
    (∀ (v : Variant) (s : TState) (x : ℚ) (r : KernelCall),
      transform v s x = .ok r → s.params ≠ none) := by
  constructor
  · intro v x
    rfl
  · intro v s x r h hnone
    rw [transform, hnone] at h
    exact absurd h (by simp)

/-- C4 witness: at concrete inputs, the fresh instance raises the
invalid-state error, and a successful call has set parameters. -/
theorem C4_witness :
    transform .Loge TState.init 0 = .error .invalidState ∧
    transform .Loge ⟨some [("a", 1), ("b", 2)]⟩ 0 =
      .ok ⟨.Loge, 0, [("a", 1), ("b", 2)]⟩ ∧
    (⟨some [("a", 1), ("b", 2)]⟩ : TState).params ≠ none :=
  ⟨C4_transform_requires_params.1 .Loge 0, rfl,
   C4_transform_requires_params.2 .Loge ⟨some [("a", 1), ("b", 2)]⟩ 0
     ⟨.Loge, 0, [("a", 1), ("b", 2)]⟩ rfl⟩

/-- C5: for every variant in the default catalog, `get_params()` returns
exactly the ordered list `["a", "b"]`. -/
theorem C5_default_catalog_params (v : Variant)
    (h : v ∈ DEFAULT_TRANSFORM) : get_params v = ["a", "b"] := by
  fin_cases h <;> rfl

/-- C5 witness: `Loge` is in the default catalog and its parameter list is
`["a", "b"]`. -/
theorem C5_witness :
    Variant.Loge ∈ DEFAULT_TRANSFORM ∧
    get_params .Loge = ["a", "b"] :=
  ⟨by decide, C5_default_catalog_params .Loge (by decide)⟩

/-- C7: the base-contract `validate_input` returns `false` on every input
containing at least one NaN or infinite element, and `true` on every input
whose elements are all finite. -/
theorem C7_validate_input (xs : List FloatVal) :
    ((∃ v ∈ xs, v = FloatVal.nan ∨ v = FloatVal.inf ∨ v = FloatVal.neginf) →
      validate_input xs = false) ∧
    ((∀ v ∈ xs, ∃ q, v = FloatVal.finite q) → validate_input xs = true) := by
  constructor
  · rintro ⟨v, hv, hc⟩
    have hfin : v.isFinite = false := by
      rcases hc with rfl | rfl | rfl <;> rfl
    rw [validate_input, ← Bool.not_eq_true]
    intro hall
    rw [List.all_eq_true] at hall
    rw [hall v hv] at hfin
    exact absurd hfin (by simp)
  · intro h
    rw [validate_input, List.all_eq_true]
    intro v hv
    obtain ⟨q, rfl⟩ := h v hv
    rfl

/-- C7 witness: a list with one NaN is rejected, an all-finite list is
accepted. -/
theorem C7_witness :
    validate_input [.finite 1, .nan] = false ∧
    validate_input [.finite 1, .finite 2] = true :=
  ⟨(C7_validate_input [.finite 1, .nan]).1
    ⟨.nan, by simp, Or.inl rfl⟩,
   (C7_validate_input [.finite 1, .finite 2]).2 (by
    intro v hv
    simp only [List.mem_cons, List.not_mem_nil, or_false] at hv
    rcases hv with rfl | rfl
    exacts [⟨1, rfl⟩, ⟨2, rfl⟩])⟩

/-- C3: the claim states that `set_params` never leaves `params` with a key
set differing from the introspected parameter list.  This is false: the
method stores whatever it is given without validation; in particular a
bare `set_params()` stores the empty mapping, whose key set is not
`get_params() = ["a", "b"]`. -/
theorem C3_counterexample :
    (set_params none [] TState.init).params = some [] ∧
    keysOf [] ≠ get_params .Loge := by
  refine ⟨rfl, ?_⟩
  decide

/-- C3 (amended): `set_params` stores the supplied mapping (or the keyword
dictionary) verbatim, with no check against the introspected names; the
stated invariant holds exactly when the caller supplies a mapping whose
keys are the introspected parameter list. -/
theorem C3_set_params_stores_verbatim (v : Variant) (p : Option Params)
    (kw : Params) (s : TState) :
    (set_params p kw s).params = some (p.getD kw) ∧
    (keysOf (p.getD kw) = get_params v →
      ((set_params p kw s).params.map keysOf) = some (get_params v)) := by
  refine ⟨rfl, fun h => ?_⟩
  simp [set_params, h]

/-- C3 witness: the mapping `{a: 1, b: 2}` has exactly the introspected
keys, and after `set_params` the stored key set is `get_params()`. -/
theorem C3_witness :
    keysOf [("a", (1 : ℚ)), ("b", 2)] = get_params .Loge ∧
    ((set_params (some [("a", 1), ("b", 2)]) [] TState.init).params.map
      keysOf) = some (get_params .Loge) :=
  ⟨by decide,
   (C3_set_params_stores_verbatim .Loge (some [("a", 1), ("b", 2)]) []
     TState.init).2 (by decide)⟩

/-- C2: the claim states that `Inv.apply(x, a=1, b=0)` equals `1/(x + ε)`
and is finite for every finite `x`.  This is false at `x = -ε`: the
stabilized denominator is exactly zero, so the division does not produce a
finite value. -/
theorem C2_counterexample :
    Inv.apply (-epsQ) 1 0 = none := by
  rw [Inv.apply, powerCallZ, if_neg (by decide), if_pos]
  rw [epsQ]
  norm_num

/-- C2 (amended): with `a = 1`, `b = 0`, `Inv.apply` returns the finite
value `1/(x + ε)` for every finite `x` whose stabilized denominator
`x + ε` is nonzero (in particular at `x = 0`); the sole exception is
`x = -ε`, where the denominator is exactly zero. -/
theorem C2_inv_stabilized (x : ℚ) (h : x + epsQ ≠ 0) :
    Inv.apply x 1 0 = some (1 / (x + epsQ)) := by
  have hx : ((1 : ℚ) * x + 0) ^ (-(-1 : ℤ)).toNat = x := by
    norm_num
  rw [Inv.apply, powerCallZ, if_neg (by decide), hx, if_neg h]

/-- C2 witness: at `x = 0` the denominator `0 + ε` is nonzero and the
result is the finite value `1/(0 + ε)`. -/
theorem C2_witness :
    (0 : ℚ) + epsQ ≠ 0 ∧
    Inv.apply 0 1 0 = some (1 / ((0 : ℚ) + epsQ)) :=
  ⟨by rw [epsQ]; norm_num, C2_inv_stabilized 0 (by rw [epsQ]; norm_num)⟩

/-- C6: for every power-family variant with class exponent `n`, the applied
kernel is `(a·x+b)^n` when `n > 0`, and `1/((a·x+b)^(−n) + ε)` with
`ε = 1e-15` when `n ≤ 0`. -/
theorem C6_power_kernel (v : Variant) (n : ℚ)
    (h : powerExponent v = some n) (x a b : ℝ) :
    (0 < n → powerApply v x a b = (a * x + b) ^ (n : ℝ)) ∧
    (n ≤ 0 →
      powerApply v x a b =
        1 / ((a * x + b) ^ (-(n : ℝ)) + (epsQ : ℝ))) := by
  rw [powerApply, h]
  constructor
  · intro hn
    rw [Option.getD_some, powerCall, if_pos (by exact_mod_cast hn)]
  · intro hn
    rw [Option.getD_some, powerCall,
      if_neg (not_lt.mpr (by exact_mod_cast hn))]

/-- C6 witness: `Power2` (with `n = 2 > 0`) evaluates to `(a·x+b)^2` and
`Inv` (with `n = -1 ≤ 0`) to the stabilized reciprocal, at `x = 1`,
`a = 1`, `b = 0`. -/
theorem C6_witness :
    powerApply .Power2 1 1 0 = ((1 : ℝ) * 1 + 0) ^ ((2 : ℚ) : ℝ) ∧
    powerApply .Inv 1 1 0 =
      1 / (((1 : ℝ) * 1 + 0) ^ (-((-1 : ℚ) : ℝ)) + (epsQ : ℝ)) :=
  ⟨(C6_power_kernel .Power2 2 rfl 1 1 0).1 (by norm_num),
   (C6_power_kernel .Inv (-1) rfl 1 1 0).2 (by norm_num)⟩

end Linearizer
